import Mathlib

/-!
Shallow embedding of the route-evaluation core of the Airline Route
Calculator (`src/app.py`).  Python floats are modelled as rationals,
Python ints as integers, and the heterogeneous JSON/list row cells as
the `Field` type below.  The external generative-language service is
modelled per aircraft call as an `OracleOutcome`.  The pandas CSV
round trip used only for display is outside the evaluator core and is
not modelled.
-/

namespace Airline

/-- A cell of an evaluation row: the Python rows mix strings and numbers
(ints and floats both become rationals). -/
inductive Field where
  | S : String → Field
  | N : ℚ → Field
deriving DecidableEq

/-- Static per-aircraft attributes, one entry of the `AIRCRAFT_DATA` dict
in `app.py`. -/
structure AircraftSpec where
  eco : ℕ
  bc : ℕ
  first : ℕ
  fuel_cost : ℕ
  range_km : ℕ
deriving DecidableEq

/-- The `AIRCRAFT_DATA` constant of `app.py` (dict iteration order is
insertion order in Python, so a list of pairs is faithful). -/
def AIRCRAFT_DATA : List (String × AircraftSpec) :=
  [("A320neo", ⟨156, 8, 0, 708, 6300⟩),
   ("A321neo", ⟨162, 12, 0, 840, 7400⟩),
   ("A350-900", ⟨288, 40, 0, 1950, 15000⟩),
   ("A350-900ULR", ⟨133, 48, 8, 2095, 18000⟩),
   ("B787-8", ⟨261, 30, 0, 1370, 13500⟩),
   ("B787-9", ⟨297, 36, 0, 1650, 14000⟩),
   ("B777-300ER", ⟨315, 40, 8, 2080, 13650⟩)]

/-- Dictionary lookup `AIRCRAFT_DATA.get(aircraft_model, {})`: `none`
models the empty-dict default. -/
def lookupSpec (model : String) : Option AircraftSpec :=
  (AIRCRAFT_DATA.find? fun p => p.1 == model).map Prod.snd

/-- Python `aircraft_info.get("range_km", 0)`. -/
def rangeOrZero (info : Option AircraftSpec) : ℕ :=
  match info with
  | some s => s.range_km
  | none => 0

/-- The f-string `f'{eco}/{bc}/{first}'` built from
`aircraft_info.get("eco", 0)` etc. -/
def seatString (info : Option AircraftSpec) : String :=
  match info with
  | some s => toString s.eco ++ "/" ++ toString s.bc ++ "/" ++ toString s.first
  | none => "0/0/0"

/-- Python `aircraft_info.get("range_km", "N/A")`: an int for a known
model, the string sentinel otherwise. -/
def rangeField (info : Option AircraftSpec) : Field :=
  match info with
  | some s => Field.N s.range_km
  | none => Field.S "N/A"

/-- Python `aircraft_info.get("fuel_cost", "N/A")`. -/
def fuelField (info : Option AircraftSpec) : Field :=
  match info with
  | some s => Field.N s.fuel_cost
  | none => Field.S "N/A"

/-- The deterministic 11-element unreachable record returned by
`generate_aircraft_data` when `distance_km > range_km` (lines 137-143). -/
def unreachableRecord (model : String) (info : Option AircraftSpec)
    (distance_km : ℤ) : List Field :=
  [Field.S model,
   rangeField info,
   Field.S (seatString info),
   fuelField info,
   Field.S "N/A/N/A",
   Field.S "N/A/N/A",
   Field.N 0,
   Field.S "N/A",
   Field.S "N/A",
   Field.N 0,
   Field.S ("เครื่องบินรุ่นนี้ (" ++ model ++ ") มีพิสัยการบินไม่เพียงพอ ("
      ++ toString (rangeOrZero info)
      ++ " กม.) ที่จะบินตรงในเส้นทางนี้ (" ++ toString distance_km
      ++ " กม.) จึงได้คะแนน 0.0 ดาว")]

/-- Diagnostic of the `else` branch at line 175: the oracle reply decoded
but was not a list of length 11. -/
def structureDiag (n : ℕ) : String :=
  "โครงสร้างข้อมูลที่ Gemini ส่งคืนไม่ถูกต้อง (ความยาว " ++ toString n ++ ")"

/-- Diagnostic of the `except Exception` branch at line 179
(`str(e)[:50]` keeps the first 50 characters of the message). -/
def apiErrDiag (msg : String) : String :=
  "เกิดข้อผิดพลาดในการเรียกใช้ API สำหรับเครื่องบินรุ่นนี้: " ++ msg.take 50

/-- The 12-element fallback row `[aircraft_model] + ["N/A"] * 9 + [1.0]
+ [diag]` built at lines 175 and 179. -/
def fallbackRecord (model diag : String) : List Field :=
  Field.S model :: (List.replicate 9 (Field.S "N/A")
    ++ [Field.N 1, Field.S diag])

/-- A decoded JSON payload as `json.loads` hands it to the line-171 checks.
`otherWithLen n` is a non-list value on which Python `len` succeeds (str,
dict); `otherNoLen msg` is one on which `len` raises a `TypeError` carrying
`msg` (number, bool, null), which the outer `except Exception` catches. -/
inductive PyJson where
  | arr : List Field → PyJson
  | otherWithLen : ℕ → PyJson
  | otherNoLen : String → PyJson
deriving DecidableEq

/-- Outcome of one oracle call as seen by `generate_aircraft_data`:
either `generate_content`/`json.loads` raises (transport or auth error,
non-JSON text, ...) with message `msg`, or the reply decodes. -/
inductive OracleOutcome where
  | raises : String → OracleOutcome
  | decoded : PyJson → OracleOutcome
deriving DecidableEq

/-- `generate_aircraft_data` of `app.py` (lines 130-179) with the oracle
call's outcome passed in explicitly.  Short-circuits to the unreachable
record when `distance_km > range`, otherwise accepts the decoded reply
iff it is a list of exactly 11 elements, and degrades to the 12-element
fallback row on any other outcome. -/
def generate_aircraft_data (oracle : OracleOutcome) (model : String)
    (distance_km : ℤ) : List Field :=
  let info := lookupSpec model
  if distance_km > (rangeOrZero info : ℤ) then
    unreachableRecord model info distance_km
  else
    match oracle with
    | OracleOutcome.raises msg => fallbackRecord model (apiErrDiag msg)
    | OracleOutcome.decoded (PyJson.arr xs) =>
        if xs.length = 11 then xs
        else fallbackRecord model (structureDiag xs.length)
    | OracleOutcome.decoded (PyJson.otherWithLen n) =>
        fallbackRecord model (structureDiag n)
    | OracleOutcome.decoded (PyJson.otherNoLen msg) =>
        fallbackRecord model (apiErrDiag msg)

/-- `list(AIRCRAFT_DATA.keys())` (line 192). -/
def aircraft_models : List String := AIRCRAFT_DATA.map Prod.fst

/-- `get_aircraft_evaluation` of `app.py` (lines 183-207): `none` when the
client is absent (`client is None`, the only table-level failure), else
one row per catalog model in catalog order.  The trailing
`if not all_data_rows: return None` guard of line 202 is kept. -/
def get_aircraft_evaluation (clientReady : Bool)
    (oracle : String → OracleOutcome) (distance_km : ℤ) :
    Option (List (List Field)) :=
  if clientReady then
    let rows := aircraft_models.map fun m =>
      generate_aircraft_data (oracle m) m distance_km
    if rows.isEmpty then none else some rows
  else none

/-- Numeric value of a list of decimal digit characters. -/
def natOfDigits (l : List Char) : ℕ :=
  l.foldl (fun a c => 10 * a + (c.toNat - '0'.toNat)) 0

/-- Parse an unsigned decimal literal (digits, optionally a dot and more
digits), the exact rational value of the literal.  Python `float` also
accepts exponents, inf/nan and underscores; none of those shapes occurs
in this program's data, so they are out of the modelled grammar and
fall to `none` like any other unparseable text. -/
def parseUnsigned (l : List Char) : Option ℚ :=
  let intPart := l.takeWhile Char.isDigit
  let rest := l.dropWhile Char.isDigit
  match rest with
  | [] => if intPart.isEmpty then none else some ((natOfDigits intPart : ℕ) : ℚ)
  | '.' :: frac =>
      if frac.all Char.isDigit && !(intPart.isEmpty && frac.isEmpty) then
        some (Rat.divInt (natOfDigits (intPart ++ frac)) (10 ^ frac.length))
      else none
  | _ => none

/-- Model of Python `float(score)` on a string: strip surrounding
whitespace, then an optional sign and a decimal literal; `none` models
the `ValueError` caught by `format_star`. -/
def pyFloat (s : String) : Option ℚ :=
  let l := ((s.toList.dropWhile Char.isWhitespace).reverse.dropWhile
      Char.isWhitespace).reverse
  match l with
  | '-' :: rest => (parseUnsigned rest).map Neg.neg
  | '+' :: rest => parseUnsigned rest
  | _ => parseUnsigned l

/-- Python `int(score)` on a float: truncation toward zero. -/
def pyTrunc (q : ℚ) : ℤ := q.num.tdiv q.den

/-- Python string repetition `s * n`: empty for `n ≤ 0`. -/
def pyStrMul (s : String) (n : ℤ) : String :=
  String.join (List.replicate n.toNat s)

/-- Round to the nearest integer, ties to the even integer, as Python's
fixed-point formatting does (the binary-float rounding noise of the
original is idealised away by working on exact rationals). -/
def roundHalfEven (q : ℚ) : ℤ :=
  let f := ⌊q⌋
  if q - f < 1/2 then f
  else if q - f > 1/2 then f + 1
  else if f % 2 = 0 then f else f + 1

/-- Model of the Python f-string field `{score:.1f}`. -/
def fmt1 (q : ℚ) : String :=
  let n := roundHalfEven (10 * q)
  let sign := if n < 0 then "-" else ""
  sign ++ toString (n.natAbs / 10) ++ "." ++ toString (n.natAbs % 10)

/-- `format_star` of `app.py` (lines 329-340): the score cell arrives as a
string (`astype(str)`), unparseable input yields "N/A", a zero score the
unreachable marker, and otherwise `int(score)` full stars, a half star
when the remainder lies in [0.25, 0.75), and the value to one decimal. -/
def format_star (score : String) : String :=
  match pyFloat score with
  | none => "N/A"
  | some q =>
    if q = 0 then "🚫 0.0 ดาว (บินไม่ถึง)"
    else
      let full_stars : ℤ := pyTrunc q
      let half_star := if 1/4 ≤ q - (full_stars : ℚ) ∧ q - (full_stars : ℚ) < 3/4
        then "½" else ""
      let stars := pyStrMul "★" full_stars
      stars ++ half_star ++ " (" ++ fmt1 q ++ ")"

/-- The score column of the displayed table ('ความเหมาะสม (ดาว)'), column
index 9 of an 11-column row. -/
def scoreCell (row : List Field) : Field := row.getD 9 (Field.S "")

/-- The identifier column of the displayed table ('ชื่อรุ่นเครื่องบิน'),
column index 0. -/
def nameCell (row : List Field) : Field := row.getD 0 (Field.S "")

/-- Pandas `astype(float)` on one cell: a number passes through, a string
is parsed like Python `float`. -/
def cellToFloat : Field → Option ℚ
  | Field.N q => some q
  | Field.S s => pyFloat s

/-- The `available_aircraft` computation of `app.py` (lines 372-377): keep
the identifiers of rows whose score converts to a float strictly greater
than 0.0; if the column conversion raises for any row, fall back to every
identifier unfiltered. -/
def available_aircraft (table : List (List Field)) : List Field :=
  if table.all fun r => (cellToFloat (scoreCell r)).isSome then
    (table.filter fun r =>
      decide (0 < (cellToFloat (scoreCell r)).getD 0)).map nameCell
  else
    table.map nameCell

/-! Helper lemmas on the evaluator, shared by the claim theorems. -/

/-- Branch lemma: the range short-circuit (line 137). -/
theorem generate_short (o : OracleOutcome) (model : String) (d : ℤ)
    (h : ((rangeOrZero (lookupSpec model) : ℕ) : ℤ) < d) :
    generate_aircraft_data o model d
      = unreachableRecord model (lookupSpec model) d := by
  simp only [generate_aircraft_data]
  rw [if_pos h]

/-- Branch lemma: a reachable aircraft whose call raises (line 177). -/
theorem generate_raises (model : String) (d : ℤ) (msg : String)
    (h : ¬ ((rangeOrZero (lookupSpec model) : ℕ) : ℤ) < d) :
    generate_aircraft_data (OracleOutcome.raises msg) model d
      = fallbackRecord model (apiErrDiag msg) := by
  simp only [generate_aircraft_data]
  rw [if_neg h]

/-- Branch lemma: a reachable aircraft with an 11-element decoded list
(line 171). -/
theorem generate_accept (model : String) (d : ℤ) (xs : List Field)
    (h : ¬ ((rangeOrZero (lookupSpec model) : ℕ) : ℤ) < d)
    (hlen : xs.length = 11) :
    generate_aircraft_data (OracleOutcome.decoded (PyJson.arr xs)) model d
      = xs := by
  simp only [generate_aircraft_data]
  rw [if_neg h, if_pos hlen]

/-- Branch lemma: a decoded list of the wrong length (line 175). -/
theorem generate_badlen (model : String) (d : ℤ) (xs : List Field)
    (h : ¬ ((rangeOrZero (lookupSpec model) : ℕ) : ℤ) < d)
    (hlen : xs.length ≠ 11) :
    generate_aircraft_data (OracleOutcome.decoded (PyJson.arr xs)) model d
      = fallbackRecord model (structureDiag xs.length) := by
  simp only [generate_aircraft_data]
  rw [if_neg h, if_neg hlen]

/-- Branch lemma: a decoded non-list on which `len` works (line 175). -/
theorem generate_otherWithLen (model : String) (d : ℤ) (n : ℕ)
    (h : ¬ ((rangeOrZero (lookupSpec model) : ℕ) : ℤ) < d) :
    generate_aircraft_data (OracleOutcome.decoded (PyJson.otherWithLen n))
      model d = fallbackRecord model (structureDiag n) := by
  simp only [generate_aircraft_data]
  rw [if_neg h]

/-- Branch lemma: a decoded non-list on which `len` raises (line 179). -/
theorem generate_otherNoLen (model : String) (d : ℤ) (msg : String)
    (h : ¬ ((rangeOrZero (lookupSpec model) : ℕ) : ℤ) < d) :
    generate_aircraft_data (OracleOutcome.decoded (PyJson.otherNoLen msg))
      model d = fallbackRecord model (apiErrDiag msg) := by
  simp only [generate_aircraft_data]
  rw [if_neg h]

/-- For a model found in the catalog, the short-circuit threshold is its
`range_km`. -/
theorem rangeOrZero_of_lookup (model : String) (spec : AircraftSpec)
    (hm : lookupSpec model = some spec) :
    rangeOrZero (lookupSpec model) = spec.range_km := by
  rw [hm]
  rfl

/-! Claim theorems. -/

/-- C1: for a catalog aircraft whose range is strictly below the queried
distance, the evaluator emits the deterministic unreachable record --
suitability score exactly 0, load and departure-time cells the "N/A"
sentinels -- and the result does not depend on the oracle (no oracle
call is made). -/
theorem C1_unreachable_short_circuit (model : String) (spec : AircraftSpec)
    (o o' : OracleOutcome) (distance_km : ℤ)
    (hm : lookupSpec model = some spec)
    (hlt : (spec.range_km : ℤ) < distance_km) :
    generate_aircraft_data o model distance_km
        = unreachableRecord model (some spec) distance_km
    ∧ (generate_aircraft_data o model distance_km)[9]? = some (Field.N 0)
    ∧ (generate_aircraft_data o model distance_km)[4]? = some (Field.S "N/A/N/A")
    ∧ (generate_aircraft_data o model distance_km)[5]? = some (Field.S "N/A/N/A")
    ∧ (generate_aircraft_data o model distance_km)[7]? = some (Field.S "N/A")
    ∧ (generate_aircraft_data o model distance_km)[8]? = some (Field.S "N/A")
    ∧ generate_aircraft_data o model distance_km
        = generate_aircraft_data o' model distance_km := by
  have hr : ((rangeOrZero (lookupSpec model) : ℕ) : ℤ) < distance_km := by
    rw [rangeOrZero_of_lookup model spec hm]; exact hlt
  have h1 := generate_short o model distance_km hr
  have h2 := generate_short o' model distance_km hr
  rw [hm] at h1 h2
  refine ⟨h1, ?_, ?_, ?_, ?_, ?_, h1.trans h2.symm⟩ <;> rw [h1] <;> rfl

/-- Witness for C1 at a concrete input: the A320neo (range 6300 km) on a
7000 km query, under two different oracle outcomes. -/
theorem C1_unreachable_short_circuit_witness :
    generate_aircraft_data (OracleOutcome.raises "boom") "A320neo" 7000
        = unreachableRecord "A320neo" (some ⟨156, 8, 0, 708, 6300⟩) 7000
    ∧ (generate_aircraft_data (OracleOutcome.raises "boom") "A320neo" 7000)[9]?
        = some (Field.N 0)
    ∧ generate_aircraft_data (OracleOutcome.raises "boom") "A320neo" 7000
        = generate_aircraft_data (OracleOutcome.decoded (PyJson.arr []))
            "A320neo" 7000 := by
  have h := C1_unreachable_short_circuit "A320neo" ⟨156, 8, 0, 708, 6300⟩
    (OracleOutcome.raises "boom") (OracleOutcome.decoded (PyJson.arr []))
    7000 (by decide) (by decide)
  exact ⟨h.1, h.2.1, h.2.2.2.2.2.2⟩

/-- C10: an aircraft whose range exactly equals the queried distance is
treated as reachable: the unreachable short-circuit is not taken, the
oracle is invoked, and its outcome decides the record (accepted verbatim
when an 11-element list, the error fallback when the call raises). -/
theorem C10_exact_range_reachable (model : String) (spec : AircraftSpec)
    (xs : List Field) (msg : String)
    (hm : lookupSpec model = some spec) (hlen : xs.length = 11) :
    generate_aircraft_data (OracleOutcome.decoded (PyJson.arr xs)) model
        (spec.range_km : ℤ) = xs
    ∧ generate_aircraft_data (OracleOutcome.raises msg) model
        (spec.range_km : ℤ) = fallbackRecord model (apiErrDiag msg) := by
  have h : ¬ ((rangeOrZero (lookupSpec model) : ℕ) : ℤ) < (spec.range_km : ℤ) := by
    rw [rangeOrZero_of_lookup model spec hm]
    exact lt_irrefl _
  exact ⟨generate_accept model _ xs h hlen, generate_raises model _ msg h⟩


/-- Witness for C10 at a concrete input: the A320neo queried at exactly
6300 km, with an accepted 11-element oracle list and with a raising call. -/
theorem C10_exact_range_reachable_witness :
    generate_aircraft_data
        (OracleOutcome.decoded (PyJson.arr (List.replicate 11 (Field.S "v"))))
        "A320neo" 6300 = List.replicate 11 (Field.S "v")
    ∧ generate_aircraft_data (OracleOutcome.raises "err") "A320neo" 6300
        = fallbackRecord "A320neo" (apiErrDiag "err") :=
  C10_exact_range_reachable "A320neo" ⟨156, 8, 0, 708, 6300⟩
    (List.replicate 11 (Field.S "v")) "err" (by decide) (by decide)

/-- C9: whenever the per-aircraft oracle call raises, or decodes to
anything other than a list of exactly 11 elements, the returned fallback
row is the 12-element list identifier :: nine "N/A" strings :: the number
1.0 :: a diagnostic string; in particular the cell at the schema's score
position (index 9) is the string "N/A", not the number 1.0, and the row
is one cell longer than the 11-field record schema. -/
theorem C9_fallback_is_twelve_cells (model : String) (spec : AircraftSpec)
    (o : OracleOutcome) (distance_km : ℤ)
    (hm : lookupSpec model = some spec)
    (hreach : distance_km ≤ (spec.range_km : ℤ))
    (hbad : ∀ xs, o = OracleOutcome.decoded (PyJson.arr xs) → xs.length ≠ 11) :
    ∃ diag, generate_aircraft_data o model distance_km
        = Field.S model :: (List.replicate 9 (Field.S "N/A")
            ++ [Field.N 1, Field.S diag])
      ∧ (generate_aircraft_data o model distance_km).length = 12
      ∧ (generate_aircraft_data o model distance_km)[9]? = some (Field.S "N/A")
      ∧ (generate_aircraft_data o model distance_km)[10]? = some (Field.N 1) := by
  have h : ¬ ((rangeOrZero (lookupSpec model) : ℕ) : ℤ) < distance_km := by
    rw [rangeOrZero_of_lookup model spec hm]
    exact not_lt.mpr hreach
  have shape : ∀ diag, generate_aircraft_data o model distance_km
      = fallbackRecord model diag →
      ∃ d, generate_aircraft_data o model distance_km
        = Field.S model :: (List.replicate 9 (Field.S "N/A")
            ++ [Field.N 1, Field.S d])
      ∧ (generate_aircraft_data o model distance_km).length = 12
      ∧ (generate_aircraft_data o model distance_km)[9]? = some (Field.S "N/A")
      ∧ (generate_aircraft_data o model distance_km)[10]? = some (Field.N 1) := by
    intro diag hd
    refine ⟨diag, hd, ?_, ?_, ?_⟩ <;> rw [hd] <;> rfl
  match o with
  | OracleOutcome.raises msg =>
      exact shape (apiErrDiag msg) (generate_raises model distance_km msg h)
  | OracleOutcome.decoded (PyJson.arr xs) =>
      exact shape (structureDiag xs.length)
        (generate_badlen model distance_km xs h (hbad xs rfl))
  | OracleOutcome.decoded (PyJson.otherWithLen n) =>
      exact shape (structureDiag n) (generate_otherWithLen model distance_km n h)
  | OracleOutcome.decoded (PyJson.otherNoLen msg) =>
      exact shape (apiErrDiag msg) (generate_otherNoLen model distance_km msg h)

/-- Witness for C9 at a concrete input: the B787-8 at 5000 km with an
oracle reply that decoded to a 3-element list. -/
theorem C9_fallback_is_twelve_cells_witness :
    ∃ diag, generate_aircraft_data
        (OracleOutcome.decoded (PyJson.arr [Field.N 1, Field.N 2, Field.N 3]))
        "B787-8" 5000
        = Field.S "B787-8" :: (List.replicate 9 (Field.S "N/A")
            ++ [Field.N 1, Field.S diag])
      ∧ (generate_aircraft_data
          (OracleOutcome.decoded (PyJson.arr [Field.N 1, Field.N 2, Field.N 3]))
          "B787-8" 5000).length = 12
      ∧ (generate_aircraft_data
          (OracleOutcome.decoded (PyJson.arr [Field.N 1, Field.N 2, Field.N 3]))
          "B787-8" 5000)[9]? = some (Field.S "N/A")
      ∧ (generate_aircraft_data
          (OracleOutcome.decoded (PyJson.arr [Field.N 1, Field.N 2, Field.N 3]))
          "B787-8" 5000)[10]? = some (Field.N 1) :=
  C9_fallback_is_twelve_cells "B787-8" ⟨261, 30, 0, 1370, 13500⟩
    (OracleOutcome.decoded (PyJson.arr [Field.N 1, Field.N 2, Field.N 3]))
    5000 (by decide) (by decide) (by intro xs hx; cases hx; decide)

/-- An 11-element record for a reachable aircraft whose score cell
(index 9) is the number 0.0, as an oracle may return it. -/
def C8row : List Field :=
  [Field.S "A350-900", Field.N 15000, Field.S "288/40/0", Field.N 1950,
   Field.S "1500/200/0", Field.S "1400/180/0", Field.N 7, Field.S "08:00น.",
   Field.S "20:00น.", Field.N 0, Field.S "สรุปสาเหตุ"]

/-- C8 counterexample: the A350-900 (range 15000 km) is reachable on a
5000 km query, yet when the oracle returns an 11-element list carrying
score 0.0 the evaluator accepts it verbatim, producing a record for a
reachable aircraft whose suitability score is exactly 0.0 -- so a score
of 0.0 does not occur exactly when the range is insufficient, and
reachable records are not always strictly positive. -/
theorem C8_counterexample :
    ¬ (5000 : ℤ) > ((rangeOrZero (lookupSpec "A350-900") : ℕ) : ℤ)
    ∧ generate_aircraft_data (OracleOutcome.decoded (PyJson.arr C8row))
        "A350-900" 5000 = C8row
    ∧ C8row[9]? = some (Field.N 0) := by decide

/-- C8 amended: the score-0.0 sentinel is guaranteed in one direction
only: every record produced by the unreachable branch carries score
exactly 0.0 at index 9; for a reachable aircraft the accepted record's
score cell is whatever the oracle returned at its index 9, which the
code does not validate (and the fallback row carries the string "N/A"
there). -/
theorem C8_score_zero_one_direction (model : String) (spec : AircraftSpec)
    (o : OracleOutcome) (xs : List Field) (distance_km : ℤ)
    (hm : lookupSpec model = some spec) :
    ((spec.range_km : ℤ) < distance_km →
      (generate_aircraft_data o model distance_km)[9]? = some (Field.N 0))
    ∧ (distance_km ≤ (spec.range_km : ℤ) →
        o = OracleOutcome.decoded (PyJson.arr xs) → xs.length = 11 →
        (generate_aircraft_data o model distance_km)[9]? = xs[9]?) := by
  constructor
  · intro hlt
    exact (C1_unreachable_short_circuit model spec o o distance_km hm hlt).2.1
  · intro hreach ho hlen
    have h : ¬ ((rangeOrZero (lookupSpec model) : ℕ) : ℤ) < distance_km := by
      rw [rangeOrZero_of_lookup model spec hm]
      exact not_lt.mpr hreach
    rw [ho, generate_accept model distance_km xs h hlen]

/-- Witness for C8 at concrete inputs: the A321neo unreachable at
8000 km, and the A321neo reachable at 7000 km with an accepted record. -/
theorem C8_score_zero_one_direction_witness :
    (generate_aircraft_data (OracleOutcome.raises "x") "A321neo" 8000)[9]?
      = some (Field.N 0)
    ∧ (generate_aircraft_data
        (OracleOutcome.decoded (PyJson.arr C8row)) "A321neo" 7000)[9]?
      = C8row[9]? :=
  ⟨(C8_score_zero_one_direction "A321neo" ⟨162, 12, 0, 840, 7400⟩
      (OracleOutcome.raises "x") C8row 8000 (by decide)).1 (by decide),
   (C8_score_zero_one_direction "A321neo" ⟨162, 12, 0, 840, 7400⟩
      (OracleOutcome.decoded (PyJson.arr C8row)) C8row 7000 (by decide)).2
      (by decide) rfl (by decide)⟩


/-- With the client present, the build always returns the mapped rows:
seven rows, one per catalog model, in catalog order. -/
theorem get_eval_true (oracle : String → OracleOutcome) (distance_km : ℤ) :
    get_aircraft_evaluation true oracle distance_km
      = some (aircraft_models.map fun m =>
          generate_aircraft_data (oracle m) m distance_km) := rfl

/-- A test oracle whose call for the A320neo raises a transport or
authentication error while every other call decodes to a valid
11-element list. -/
def C3oracle : String → OracleOutcome := fun m =>
  if m = "A320neo" then OracleOutcome.raises "APIError: 401 UNAUTHENTICATED"
  else OracleOutcome.decoded (PyJson.arr (Field.S m :: List.replicate 10 (Field.S "ok")))

/-- C3 counterexample: with the client present and every aircraft
reachable (5000 km), a transport/authentication error raised during the
A320neo call does not abort the table build: the build still returns a
valid table of all 7 rows instead of a table-level failure. -/
theorem C3_counterexample :
    C3oracle "A320neo" = OracleOutcome.raises "APIError: 401 UNAUTHENTICATED"
    ∧ (get_aircraft_evaluation true C3oracle 5000).isSome = true
    ∧ (get_aircraft_evaluation true C3oracle 5000).map List.length = some 7 := by
  decide

/-- C3 amended: a transport/authentication error raised during one
per-aircraft call is caught inside that call and replaced by that row's
diagnostic fallback record; the table build continues and returns a full
7-row table.  The only table-level failure (`none`) arises when the
oracle client is absent before any call is made. -/
theorem C3_error_degrades_row_only (oracle : String → OracleOutcome)
    (distance_km : ℤ) (m : String) (msg : String) (spec : AircraftSpec)
    (hm : lookupSpec m = some spec) (hmem : m ∈ aircraft_models)
    (ho : oracle m = OracleOutcome.raises msg)
    (hreach : distance_km ≤ (spec.range_km : ℤ)) :
    get_aircraft_evaluation false oracle distance_km = none
    ∧ ∃ t, get_aircraft_evaluation true oracle distance_km = some t
        ∧ t.length = 7
        ∧ fallbackRecord m (apiErrDiag msg) ∈ t := by
  refine ⟨rfl, aircraft_models.map fun x =>
    generate_aircraft_data (oracle x) x distance_km, rfl,
    (List.length_map _ _).trans rfl, ?_⟩
  have h : ¬ ((rangeOrZero (lookupSpec m) : ℕ) : ℤ) < distance_km := by
    rw [rangeOrZero_of_lookup m spec hm]
    exact not_lt.mpr hreach
  have hgen : generate_aircraft_data (oracle m) m distance_km
      = fallbackRecord m (apiErrDiag msg) := by
    rw [ho]
    exact generate_raises m distance_km msg h
  exact hgen ▸ List.mem_map_of_mem _ hmem

/-- Witness for C3's amended theorem: the raising oracle above, applied
at the concrete member A320neo with distance 5000 km. -/
theorem C3_error_degrades_row_only_witness :
    get_aircraft_evaluation false C3oracle 5000 = none
    ∧ ∃ t, get_aircraft_evaluation true C3oracle 5000 = some t
        ∧ t.length = 7
        ∧ fallbackRecord "A320neo" (apiErrDiag "APIError: 401 UNAUTHENTICATED") ∈ t :=
  C3_error_degrades_row_only C3oracle 5000 "A320neo"
    "APIError: 401 UNAUTHENTICATED" ⟨156, 8, 0, 708, 6300⟩
    (by decide) (by decide) (by decide) (by decide)

/-- C5: a successfully built evaluation table has exactly one row per
catalog entry, and row i is the record generated for the i-th catalog
model -- row order equals catalog iteration order, whichever branch
(unreachable, accepted, or fallback) produced each row. -/
theorem C5_one_row_per_model_in_order (clientReady : Bool)
    (oracle : String → OracleOutcome) (distance_km : ℤ)
    (t : List (List Field))
    (h : get_aircraft_evaluation clientReady oracle distance_km = some t) :
    t.length = aircraft_models.length
    ∧ ∀ i : ℕ, t[i]? = (aircraft_models[i]?).map
        (fun m => generate_aircraft_data (oracle m) m distance_km) := by
  have hc : clientReady = true := by
    cases clientReady
    · simp [get_aircraft_evaluation] at h
    · rfl
  subst hc
  rw [get_eval_true] at h
  have ht : t = aircraft_models.map fun m =>
      generate_aircraft_data (oracle m) m distance_km :=
    (Option.some_injective _ h).symm
  subst ht
  refine ⟨List.length_map _ _, fun i => ?_⟩
  exact List.getElem?_map _ _ _

/-- Witness for C5: a concrete table built with an all-raising oracle at
9999 km; its first row is the record generated for the first model. -/
theorem C5_one_row_per_model_in_order_witness :
    ∃ t, get_aircraft_evaluation true (fun _ => OracleOutcome.raises "e") 9999
        = some t
    ∧ t.length = aircraft_models.length
    ∧ t[0]? = (aircraft_models[0]?).map
        (fun m => generate_aircraft_data (OracleOutcome.raises "e") m 9999) := by
  refine ⟨aircraft_models.map fun m =>
    generate_aircraft_data (OracleOutcome.raises "e") m 9999,
    get_eval_true _ _, ?_⟩
  have h := C5_one_row_per_model_in_order true (fun _ => OracleOutcome.raises "e")
    9999 (aircraft_models.map fun m =>
      generate_aircraft_data (OracleOutcome.raises "e") m 9999)
    (get_eval_true _ _)
  exact ⟨h.1, h.2 0⟩

/-- An 11-element record for a reachable aircraft whose score cell
(index 9) is a non-numeric string: every structural check passes, the
semantic one would not. -/
def C2row : List Field :=
  [Field.S "A350-900", Field.N 15000, Field.S "288/40/0", Field.N 1950,
   Field.S "1500/200/0", Field.S "1400/180/0", Field.N 7, Field.S "08:00น.",
   Field.S "20:00น.", Field.S "ไม่ใช่ตัวเลข", Field.S "สรุป"]

/-- C2 counterexample: for the reachable A350-900 at 5000 km, an oracle
reply decoding to an 11-element list whose score field is a non-numeric
string is accepted verbatim as the aircraft's record -- the evaluator
does not check semantic validity of the fields, contradicting the
"if and only if every field is semantically valid" acceptance rule. -/
theorem C2_counterexample :
    generate_aircraft_data (OracleOutcome.decoded (PyJson.arr C2row))
        "A350-900" 5000 = C2row
    ∧ cellToFloat (scoreCell C2row) = none := by
  decide

/-- C2 amended: acceptance is purely structural -- a decoded reply is
accepted as the record iff it is a list of exactly 11 elements, with no
semantic validation of any field; on every other outcome the evaluator
substitutes the fallback row: identifier preserved, nine "N/A" cells,
the number 1.0, and a diagnostic string naming the failure (a 12-element
row, so the 1.0 sits after the schema's score position). -/
theorem C2_structural_acceptance_only (model : String) (spec : AircraftSpec)
    (o : OracleOutcome) (xs : List Field) (distance_km : ℤ)
    (hm : lookupSpec model = some spec)
    (hreach : distance_km ≤ (spec.range_km : ℤ)) :
    (o = OracleOutcome.decoded (PyJson.arr xs) → xs.length = 11 →
      generate_aircraft_data o model distance_km = xs)
    ∧ ((∀ ys, o = OracleOutcome.decoded (PyJson.arr ys) → ys.length ≠ 11) →
      ∃ diag, generate_aircraft_data o model distance_km
        = Field.S model :: (List.replicate 9 (Field.S "N/A")
            ++ [Field.N 1, Field.S diag])) := by
  have h : ¬ ((rangeOrZero (lookupSpec model) : ℕ) : ℤ) < distance_km := by
    rw [rangeOrZero_of_lookup model spec hm]
    exact not_lt.mpr hreach
  constructor
  · intro ho hlen
    rw [ho]
    exact generate_accept model distance_km xs h hlen
  · intro hbad
    obtain ⟨d, hd, -⟩ := C9_fallback_is_twelve_cells model spec o distance_km
      hm hreach hbad
    exact ⟨d, hd⟩

/-- Witness for C2's amended theorem: the reachable B777-300ER at
9000 km, accepting the semantically invalid but 11-element C2row, and
falling back on a reply that decoded to a JSON string. -/
theorem C2_structural_acceptance_only_witness :
    generate_aircraft_data (OracleOutcome.decoded (PyJson.arr C2row))
        "B777-300ER" 9000 = C2row
    ∧ ∃ diag, generate_aircraft_data
        (OracleOutcome.decoded (PyJson.otherWithLen 42)) "B777-300ER" 9000
        = Field.S "B777-300ER" :: (List.replicate 9 (Field.S "N/A")
            ++ [Field.N 1, Field.S diag]) :=
  ⟨(C2_structural_acceptance_only "B777-300ER" ⟨315, 40, 8, 2080, 13650⟩
      (OracleOutcome.decoded (PyJson.arr C2row)) C2row 9000
      (by decide) (by decide)).1 rfl (by decide),
   (C2_structural_acceptance_only "B777-300ER" ⟨315, 40, 8, 2080, 13650⟩
      (OracleOutcome.decoded (PyJson.otherWithLen 42)) C2row 9000
      (by decide) (by decide)).2
      (by intro ys hy; cases hy)⟩


/-- A test oracle modelling a malformed (non-JSON) reply for exactly one
aircraft: the B787-9 call raises the `json.loads` decode error, every
other call decodes to a valid 11-element list. -/
def C4oracle : String → OracleOutcome := fun m =>
  if m = "B787-9" then
    OracleOutcome.raises "Expecting value: line 1 column 1 (char 0)"
  else OracleOutcome.decoded (PyJson.arr (Field.S m :: List.replicate 10 (Field.S "ok")))

/-- C4: when exactly one reachable aircraft's oracle response is
malformed (its call raises, e.g. the json decode error) and every other
aircraft's response is a valid 11-element list, the build still returns
a full 7-row table in which exactly one row has the 12-element fallback
shape; every other aircraft's row is its accepted oracle record,
unmodified and at its catalog position. -/
theorem C4_single_row_degradation (oracle : String → OracleOutcome)
    (distance_km : ℤ) (m0 : String) (msg : String)
    (hmem : m0 ∈ aircraft_models)
    (hreach : ∀ m ∈ aircraft_models,
      distance_km ≤ ((rangeOrZero (lookupSpec m) : ℕ) : ℤ))
    (hbad : oracle m0 = OracleOutcome.raises msg)
    (hgood : ∀ m ∈ aircraft_models, m ≠ m0 →
      ∃ xs, oracle m = OracleOutcome.decoded (PyJson.arr xs) ∧ xs.length = 11) :
    ∃ t, get_aircraft_evaluation true oracle distance_km = some t
      ∧ t.length = 7
      ∧ t.countP (fun r => r.length == 12) = 1
      ∧ (∀ (i : ℕ) (m : String), aircraft_models[i]? = some m → m ≠ m0 →
          ∃ xs, oracle m = OracleOutcome.decoded (PyJson.arr xs)
            ∧ t[i]? = some xs)
      ∧ (∀ i : ℕ, aircraft_models[i]? = some m0 →
          t[i]? = some (fallbackRecord m0 (apiErrDiag msg))) := by
  have hfm0 : generate_aircraft_data (oracle m0) m0 distance_km
      = fallbackRecord m0 (apiErrDiag msg) := by
    rw [hbad]
    exact generate_raises m0 distance_km msg (not_lt.mpr (hreach m0 hmem))
  have hfm : ∀ m ∈ aircraft_models, m ≠ m0 →
      ∃ xs, oracle m = OracleOutcome.decoded (PyJson.arr xs)
        ∧ generate_aircraft_data (oracle m) m distance_km = xs
        ∧ xs.length = 11 := by
    intro m hm hne
    obtain ⟨xs, ho, hlen⟩ := hgood m hm hne
    refine ⟨xs, ho, ?_, hlen⟩
    rw [ho]
    exact generate_accept m distance_km xs (not_lt.mpr (hreach m hm)) hlen
  refine ⟨aircraft_models.map fun m =>
      generate_aircraft_data (oracle m) m distance_km,
    get_eval_true _ _, (List.length_map _ _).trans rfl, ?_, ?_, ?_⟩
  · rw [List.countP_map]
    have hcong : List.countP
        ((fun r : List Field => r.length == 12)
          ∘ fun m => generate_aircraft_data (oracle m) m distance_km)
        aircraft_models
        = List.countP (fun m => m == m0) aircraft_models := by
      apply List.countP_congr
      intro m hm
      by_cases he : m = m0
      · subst he
        simp [Function.comp, hfm0, fallbackRecord]
      · obtain ⟨xs, -, hfx, hlen⟩ := hfm m hm he
        simp [Function.comp, hfx, hlen, he]
    rw [hcong, ← List.count_eq_countP]
    exact List.count_eq_one_of_mem (by decide) hmem
  · intro i m hi hne
    obtain ⟨xs, ho, hfx, -⟩ := hfm m (List.getElem?_mem hi) hne
    refine ⟨xs, ho, ?_⟩
    rw [List.getElem?_map _ _ _, hi]
    simp [hfx]
  · intro i hi
    rw [List.getElem?_map _ _ _, hi]
    simp [hfm0]

/-- Witness for C4: the oracle above at 5000 km (every catalog aircraft
reachable), with the B787-9 row degraded. -/
theorem C4_single_row_degradation_witness :
    ∃ t, get_aircraft_evaluation true C4oracle 5000 = some t
      ∧ t.length = 7
      ∧ t.countP (fun r => r.length == 12) = 1
      ∧ (∀ (i : ℕ) (m : String), aircraft_models[i]? = some m → m ≠ "B787-9" →
          ∃ xs, C4oracle m = OracleOutcome.decoded (PyJson.arr xs)
            ∧ t[i]? = some xs)
      ∧ (∀ i : ℕ, aircraft_models[i]? = some "B787-9" →
          t[i]? = some (fallbackRecord "B787-9"
            (apiErrDiag "Expecting value: line 1 column 1 (char 0)"))) :=
  C4_single_row_degradation C4oracle 5000 "B787-9"
    "Expecting value: line 1 column 1 (char 0)"
    (by decide) (by decide) (by decide)
    (by
      intro m hm hne
      refine ⟨Field.S m :: List.replicate 10 (Field.S "ok"), ?_, rfl⟩
      simp [C4oracle, hne])


/-- An 11-cell display row with the given identifier in column 0 and the
given numeric score in column 9. -/
def C7row (name : String) (score : ℚ) : List Field :=
  [Field.S name, Field.N 0, Field.S "", Field.N 0, Field.S "", Field.S "",
   Field.N 0, Field.S "", Field.S "", Field.N score, Field.S ""]

/-- C7: when every row's score converts to a float, the selection filter
returns the identifiers of exactly the rows with score strictly greater
than 0.0, preserving table order; when any row's score is unparseable it
fails open and returns every identifier unfiltered.  On the mixed-score
table [0.0, 2.0, 0.0, 4.5] it selects exactly the 2nd and 4th
identifiers. -/
theorem C7_selectable_filter (t : List (List Field)) :
    ((∀ r ∈ t, (cellToFloat (scoreCell r)).isSome = true) →
      available_aircraft t
        = (t.filter fun r =>
            decide (0 < (cellToFloat (scoreCell r)).getD 0)).map nameCell)
    ∧ ((∃ r ∈ t, cellToFloat (scoreCell r) = none) →
      available_aircraft t = t.map nameCell)
    ∧ available_aircraft
        [C7row "r1" 0, C7row "r2" 2, C7row "r3" 0, C7row "r4" (Rat.divInt 9 2)]
      = [Field.S "r2", Field.S "r4"] := by
  refine ⟨?_, ?_, by decide⟩
  · intro hall
    unfold available_aircraft
    rw [if_pos (List.all_eq_true.mpr hall)]
  · intro hnone
    unfold available_aircraft
    rw [if_neg ?_]
    intro hall
    obtain ⟨r, hr, hcell⟩ := hnone
    have := List.all_eq_true.mp hall r hr
    rw [hcell] at this
    exact absurd this (by decide)

/-- Witness for C7: the filtering branch at a one-row all-numeric table
and the fail-open branch at a one-row table with an unparseable score. -/
theorem C7_selectable_filter_witness :
    available_aircraft [C7row "a" 3]
      = ([C7row "a" 3].filter fun r =>
          decide (0 < (cellToFloat (scoreCell r)).getD 0)).map nameCell
    ∧ available_aircraft [[Field.S "b"]] = [[Field.S "b"]].map nameCell :=
  ⟨(C7_selectable_filter [C7row "a" 3]).1 (by decide),
   (C7_selectable_filter [[Field.S "b"]]).2.1
     ⟨[Field.S "b"], by decide, by decide⟩⟩


/-- The one-decimal string rendered from an already-rounded tenths
count. -/
def fmt1str (n : ℤ) : String :=
  (if n < 0 then "-" else "") ++ toString (n.natAbs / 10) ++ "."
    ++ toString (n.natAbs % 10)

/-- Evaluation helper: fmt1 through a computed rounding. -/
theorem fmt1_eq (q : ℚ) (n : ℤ) (hn : roundHalfEven (10 * q) = n) :
    fmt1 q = fmt1str n := by
  simp only [fmt1, fmt1str, hn]

/-- Evaluation helper: rounding below the half boundary. -/
theorem rhe_lt (q : ℚ) (f : ℤ) (hf : ⌊q⌋ = f) (h : q - (f : ℚ) < 1/2) :
    roundHalfEven q = f := by
  simp only [roundHalfEven, hf]
  rw [if_pos h]

/-- Evaluation helper: rounding above the half boundary. -/
theorem rhe_gt (q : ℚ) (f : ℤ) (hf : ⌊q⌋ = f) (h : 1/2 < q - (f : ℚ)) :
    roundHalfEven q = f + 1 := by
  simp only [roundHalfEven, hf]
  rw [if_neg (by linarith), if_pos h]

/-- Evaluation helper: rounding at an exact tie goes to the even
neighbour. -/
theorem rhe_tie (q : ℚ) (f : ℤ) (hf : ⌊q⌋ = f) (h : q - (f : ℚ) = 1/2) :
    roundHalfEven q = if f % 2 = 0 then f else f + 1 := by
  simp only [roundHalfEven, hf]
  rw [if_neg (by rw [h]; exact lt_irrefl _), if_neg (by rw [h]; exact lt_irrefl _)]

/-- Unfolding of format_star on a parsed nonzero score. -/
theorem format_star_some (s : String) (q : ℚ)
    (hp : pyFloat s = some q) (h0 : ¬ q = 0) :
    format_star s = pyStrMul "★" (pyTrunc q)
      ++ (if 1/4 ≤ q - (pyTrunc q : ℚ) ∧ q - (pyTrunc q : ℚ) < 3/4
          then "½" else "")
      ++ " (" ++ fmt1 q ++ ")" := by
  simp only [format_star, hp]
  rw [if_neg h0]

/-- Full evaluation of format_star on a parsed nonzero score whose
truncation, half-star test and rounding are given. -/
theorem format_star_eval (s : String) (q : ℚ) (k n : ℤ) (half : String)
    (hp : pyFloat s = some q) (h0 : ¬ q = 0) (hk : pyTrunc q = k)
    (hh : (if 1/4 ≤ q - (k : ℚ) ∧ q - (k : ℚ) < 3/4 then "½" else "") = half)
    (hn : roundHalfEven (10 * q) = n) :
    format_star s = pyStrMul "★" k ++ half ++ " (" ++ fmt1str n ++ ")" := by
  rw [format_star_some s q hp h0, hk, hh, fmt1_eq q n hn]

/-- Python `int()` truncation agrees with the floor on non-negative
rationals. -/
theorem pyTrunc_eq_floor (q : ℚ) (h : 0 ≤ q) : pyTrunc q = ⌊q⌋ := by
  unfold pyTrunc
  rw [Rat.floor_def]
  exact Int.tdiv_eq_ediv (Rat.num_nonneg.mpr h) (Int.natCast_nonneg _)

/-- C6 counterexample: "-0.5" parses to -1/2, whose fractional part
(-1/2 minus its floor) is 1/2, inside [1/4, 3/4), yet format_star
renders no half-star glyph for it: the claimed floor/fractional-part
rule does not hold on every input, because the code truncates toward
zero rather than flooring. -/
theorem C6_counterexample :
    pyFloat "-0.5" = some (Rat.divInt (-1) 2)
    ∧ (1/4 : ℚ) ≤ Rat.divInt (-1) 2 - ((⌊Rat.divInt (-1) 2⌋ : ℤ) : ℚ)
    ∧ Rat.divInt (-1) 2 - ((⌊Rat.divInt (-1) 2⌋ : ℤ) : ℚ) < 3/4
    ∧ format_star "-0.5" = " (-0.5)"
    ∧ ('½' ∈ (format_star "-0.5").toList → False) := by
  have hfloor : ⌊Rat.divInt (-1) 2⌋ = -1 := by decide
  have hform : format_star "-0.5" = " (-0.5)" := by
    have h := format_star_eval "-0.5" (Rat.divInt (-1) 2) 0 (-5) ""
      (by decide) (by decide) (by decide)
      (by
        rw [if_neg]
        intro hcontra
        rw [Rat.divInt_eq_div] at hcontra
        have h1 := hcontra.1
        norm_num at h1)
      (by
        have h10 : (10 : ℚ) * Rat.divInt (-1) 2 = Rat.divInt (-5) 1 := by
          rw [Rat.divInt_eq_div, Rat.divInt_eq_div]
          norm_num
        rw [h10]
        exact rhe_lt (Rat.divInt (-5) 1) (-5) (by decide)
          (by rw [Rat.divInt_eq_div]; norm_num))
    exact h.trans (by decide)
  refine ⟨by decide, ?_, ?_, hform, ?_⟩
  · rw [hfloor, Rat.divInt_eq_div]
    norm_num
  · rw [hfloor, Rat.divInt_eq_div]
    norm_num
  · rw [hform]
    decide

/-- C6 amended: format_star returns "N/A" on unparseable input and the
unreachable marker on score 0.0; for every positive parseable score it
renders floor(score) whole stars, a half star exactly when the
fractional part lies in [1/4, 3/4), and the value rounded to one decimal
in parentheses (for negative scores the code truncates toward zero
instead of flooring).  In particular "3.25" gets a half star, "3.75"
does not, and "3.1" renders with no half star and one decimal "(3.1)". -/
theorem C6_format_star_rules (s : String) (q : ℚ) :
    (pyFloat s = none → format_star s = "N/A")
    ∧ (pyFloat s = some 0 → format_star s = "🚫 0.0 ดาว (บินไม่ถึง)")
    ∧ (pyFloat s = some q → 0 < q →
        format_star s = pyStrMul "★" ⌊q⌋
          ++ (if 1/4 ≤ q - ((⌊q⌋ : ℤ) : ℚ) ∧ q - ((⌊q⌋ : ℤ) : ℚ) < 3/4
              then "½" else "")
          ++ " (" ++ fmt1 q ++ ")")
    ∧ format_star "3.25" = "★★★½ (3.2)"
    ∧ format_star "3.75" = "★★★ (3.8)"
    ∧ format_star "3.1" = "★★★ (3.1)" := by
  refine ⟨?_, ?_, ?_, ?_, ?_, ?_⟩
  · intro hp
    simp only [format_star, hp]
  · intro hp
    simp [format_star, hp]
  · intro hp hpos
    rw [format_star_some s q hp (by exact ne_of_gt hpos),
      pyTrunc_eq_floor q (le_of_lt hpos)]
  · have h := format_star_eval "3.25" (Rat.divInt 325 100) 3 32 "½"
      (by decide) (by decide) (by decide)
      (by rw [if_pos]; rw [Rat.divInt_eq_div]; norm_num)
      (by
        have h10 : (10 : ℚ) * Rat.divInt 325 100 = Rat.divInt 65 2 := by
          rw [Rat.divInt_eq_div, Rat.divInt_eq_div]
          norm_num
        rw [h10, rhe_tie (Rat.divInt 65 2) 32 (by decide)
          (by rw [Rat.divInt_eq_div]; norm_num)]
        decide)
    exact h.trans (by decide)
  · have h := format_star_eval "3.75" (Rat.divInt 375 100) 3 38 ""
      (by decide) (by decide) (by decide)
      (by
        rw [if_neg]
        intro hcontra
        rw [Rat.divInt_eq_div] at hcontra
        have h2 := hcontra.2
        norm_num at h2)
      (by
        have h10 : (10 : ℚ) * Rat.divInt 375 100 = Rat.divInt 75 2 := by
          rw [Rat.divInt_eq_div, Rat.divInt_eq_div]
          norm_num
        rw [h10, rhe_tie (Rat.divInt 75 2) 37 (by decide)
          (by rw [Rat.divInt_eq_div]; norm_num)]
        decide)
    exact h.trans (by decide)
  · have h := format_star_eval "3.1" (Rat.divInt 31 10) 3 31 ""
      (by decide) (by decide) (by decide)
      (by
        rw [if_neg]
        intro hcontra
        rw [Rat.divInt_eq_div] at hcontra
        have h1 := hcontra.1
        norm_num at h1)
      (by
        have h10 : (10 : ℚ) * Rat.divInt 31 10 = Rat.divInt 31 1 := by
          rw [Rat.divInt_eq_div, Rat.divInt_eq_div]
          norm_num
        rw [h10]
        exact rhe_lt (Rat.divInt 31 1) 31 (by decide)
          (by rw [Rat.divInt_eq_div]; norm_num))
    exact h.trans (by decide)

/-- Witness for C6's amended theorem: the unparseable input "N/A" and
the positive score "2.5". -/
theorem C6_format_star_rules_witness :
    format_star "N/A" = "N/A"
    ∧ format_star "2.5" = pyStrMul "★" ⌊Rat.divInt 5 2⌋
        ++ (if 1/4 ≤ Rat.divInt 5 2 - ((⌊Rat.divInt 5 2⌋ : ℤ) : ℚ)
              ∧ Rat.divInt 5 2 - ((⌊Rat.divInt 5 2⌋ : ℤ) : ℚ) < 3/4
            then "½" else "")
        ++ " (" ++ fmt1 (Rat.divInt 5 2) ++ ")" :=
  ⟨(C6_format_star_rules "N/A" 0).1 (by decide),
   (C6_format_star_rules "2.5" (Rat.divInt 5 2)).2.2.1 (by decide)
     (by rw [Rat.divInt_eq_div]; norm_num)⟩

end Airline
